import Mathlib

/-!
Verification of `homeassistant/components/whois/helper.py`.

The module wraps an external whois lookup: `query(domain)` calls the
external library, classifies its exceptions into `WhoisUnknownTLD` and
`GenericWhoisError` (suppressing "No match for" errors), and maps the raw
result dictionary into a `Domain` record via defensive per-field
extractors.

Shallow embedding: Python runtime values appearing in raw whois results
are modelled by `Scalar` (string, datetime, boolean) and `Value`
(a bare scalar or a list of scalars); the raw result is an association
list from field names to values.  Python truthiness, `str()`, `.lower()`
and the left-to-right `or` chain are modelled explicitly.  The one
extraction that can raise (`get_attr_dnssec` calls `.lower()` on a value
that may not be a string) returns `Except`; the rest are total and
return `Option`.
-/

/-- Model of a Python `datetime` value: date/time components plus an
optional UTC offset in minutes (aware vs naive datetimes). -/
structure Datetime where
  year : Nat
  month : Nat
  day : Nat
  hour : Nat
  minute : Nat
  second : Nat
  microsecond : Nat
  tzOffsetMinutes : Option Int
deriving DecidableEq, Repr

/-- Left-pad a numeral to two digits, as Python datetime formatting does. -/
def pad2 (n : Nat) : String :=
  if n < 10 then "0" ++ toString n else toString n

/-- Left-pad a numeral to four digits. -/
def pad4 (n : Nat) : String :=
  if n < 10 then "000" ++ toString n
  else if n < 100 then "00" ++ toString n
  else if n < 1000 then "0" ++ toString n
  else toString n

/-- Left-pad a numeral to six digits (microseconds). -/
def pad6 (n : Nat) : String :=
  let s := toString n
  String.mk (List.replicate (6 - s.length) '0') ++ s

/-- Render the timezone suffix of an aware datetime ("+HH:MM"). -/
def tzSuffix : Option Int → String
  | none => ""
  | some off =>
      (if off < 0 then "-" else "+") ++ pad2 (off.natAbs / 60) ++ ":"
        ++ pad2 (off.natAbs % 60)

/-- Model of Python `str()` applied to a datetime
("YYYY-MM-DD HH:MM:SS[.ffffff][+HH:MM]"). -/
def Datetime.pyStr (d : Datetime) : String :=
  pad4 d.year ++ "-" ++ pad2 d.month ++ "-" ++ pad2 d.day ++ " "
    ++ pad2 d.hour ++ ":" ++ pad2 d.minute ++ ":" ++ pad2 d.second
    ++ (if d.microsecond = 0 then "" else "." ++ pad6 d.microsecond)
    ++ tzSuffix d.tzOffsetMinutes

/-- A scalar Python value that the inbound contract allows in a raw whois
result: a string, a parsed timestamp, or a boolean. -/
inductive Scalar
  | str : String → Scalar
  | date : Datetime → Scalar
  | bool : Bool → Scalar
deriving DecidableEq, Repr

/-- A raw field value: a bare scalar or an ordered list of scalars. -/
inductive Value
  | scalar : Scalar → Value
  | list : List Scalar → Value
deriving DecidableEq, Repr

/-- Python truthiness of a scalar: empty strings and `False` are falsy,
datetimes are always truthy. -/
def Scalar.truthy : Scalar → Bool
  | .str s => s ≠ ""
  | .date _ => true
  | .bool b => b

/-- Python truthiness of a raw field value: a list is truthy when
nonempty, a scalar by `Scalar.truthy`. -/
def Value.truthy : Value → Bool
  | .scalar s => s.truthy
  | .list l => l ≠ []

/-- Model of Python `str()` on a scalar. -/
def Scalar.pyStr : Scalar → String
  | .str s => s
  | .date d => d.pyStr
  | .bool b => if b then "True" else "False"

/-- Whether a scalar is a Python string. -/
def Scalar.isStr : Scalar → Bool
  | .str _ => true
  | _ => false

/-- Model of Python `str.lower()`, lowering each character (executable
model that the kernel can evaluate). -/
def pyLower (s : String) : String :=
  String.mk (s.data.map Char.toLower)

/-- A raw whois result: a mapping from field names to raw values,
modelled as an association list. -/
abbrev RawResult := List (String × Value)

deriving instance DecidableEq for Except

/-- Model of Python exceptions that the field-mapping code itself can
raise (calling `.lower()` on a non-string raises `AttributeError`). -/
inductive PyExc
  | attributeError
deriving DecidableEq, Repr

/-- Model of Python `.lower()` on a scalar: defined only for strings,
raising `AttributeError` otherwise, exactly as `v.lower()` does. -/
def Scalar.lowerE : Scalar → Except PyExc String
  | .str s => .ok (pyLower s)
  | _ => .error .attributeError

/-- Source `helper.py` line 76: `get_attr_generic_single`.  Absent or
falsy field yields `None`; a list yields its first element; a bare
scalar is returned directly. -/
def get_attr_generic_single (wh : RawResult) (attr_name : String) : Option Scalar :=
  match List.lookup attr_name wh with
  | none => none
  | some v =>
      if v.truthy then
        match v with
        | .scalar s => some s
        | .list l => l.head?
      else none

/-- Source `helper.py` line 84: `get_attr_generic_date`.  Generic single
extraction, kept only when the result is actually a datetime. -/
def get_attr_generic_date (wh : RawResult) (attr_name : String) : Option Datetime :=
  match get_attr_generic_single wh attr_name with
  | some (.date d) => some d
  | _ => none

/-- Source `helper.py` line 90: `get_attr_name_servers`.  Absent or falsy
yields `None`; otherwise the value is coerced to a list and every entry
is passed through `str(...).lower()`. -/
def get_attr_name_servers (wh : RawResult) : Option (List String) :=
  match List.lookup "name_servers" wh with
  | none => none
  | some v =>
      if v.truthy then
        let ns := match v with
          | .list l => l
          | .scalar s => [s]
        some (ns.map fun n => pyLower n.pyStr)
      else none

/-- Model of the Python `or` of two optional scalars: the left operand
wins when it is present and truthy, otherwise the right operand. -/
def orScalar (a b : Option Scalar) : Option Scalar :=
  match a with
  | some s => if s.truthy then some s else b
  | none => b

/-- Source `helper.py` line 99: `get_attr_owner`.  The `or` chain over
"name", "org", "registrant_name"; a truthy result is cast to string,
otherwise `None`. -/
def get_attr_owner (wh : RawResult) : Option String :=
  let owner :=
    orScalar (get_attr_generic_single wh "name")
      (orScalar (get_attr_generic_single wh "org")
        (get_attr_generic_single wh "registrant_name"))
  match owner with
  | some s => if s.truthy then some s.pyStr else none
  | none => none

/-- The short-circuiting `any(v.lower() != "unsigned" for v in attr)` of
`get_attr_dnssec`: entries are examined left to right; a non-string
entry raises `AttributeError` unless an earlier entry already decided
the answer. -/
def dnssecAny : List Scalar → Except PyExc Bool
  | [] => .ok false
  | v :: rest =>
      match v.lowerE with
      | .error e => .error e
      | .ok lv => if lv ≠ "unsigned" then .ok true else dnssecAny rest

/-- Source `helper.py` line 117: `get_attr_dnssec`.  Absent or falsy
yields `False`; otherwise the value is coerced to a list and the result
is the short-circuiting any-not-"unsigned" test, which can raise. -/
def get_attr_dnssec (wh : RawResult) : Except PyExc Bool :=
  match List.lookup "dnssec" wh with
  | none => .ok false
  | some v =>
      if v.truthy then
        dnssecAny (match v with
          | .list l => l
          | .scalar s => [s])
      else .ok false

/-- Source `helper.py` line 126: `get_attr_statuses`.  Absent or falsy
yields `None`; otherwise a list is returned as is and a bare scalar is
wrapped into a one-element list, preserving case and order. -/
def get_attr_statuses (wh : RawResult) : Option (List Scalar) :=
  match List.lookup "status" wh with
  | none => none
  | some v =>
      if v.truthy then
        some (match v with
          | .list l => l
          | .scalar s => [s])
      else none

/-- The `Domain` dataclass of `helper.py` line 11, with each field typed
by the runtime shape the mapping code actually assigns; `statuses` keeps
the dynamic `Value` type so that list-versus-scalar shape is visible. -/
structure Domain where
  admin : Option Scalar
  creation_date : Option Datetime
  expiration_date : Option Datetime
  last_updated : Option Datetime
  name_servers : Option (List String)
  owner : Option String
  registrar : Option Scalar
  reseller : Option Scalar
  registrant : Option String
  dnssec : Bool
  status : Option Scalar
  statuses : Option Value
deriving DecidableEq, Repr

/-- The field-mapping step of `query` (`helper.py` lines 60 to 73): build
the `Domain` record from a present raw result.  Only the dnssec
extraction can raise; every other extractor is total. -/
def mapDomain (wh : RawResult) : Except PyExc Domain :=
  match get_attr_dnssec wh with
  | .error e => .error e
  | .ok dn =>
      .ok { admin := get_attr_generic_single wh "admin"
            creation_date := get_attr_generic_date wh "creation_date"
            expiration_date := get_attr_generic_date wh "expiration_date"
            last_updated := get_attr_generic_date wh "updated_date"
            name_servers := get_attr_name_servers wh
            owner := get_attr_owner wh
            registrar := get_attr_generic_single wh "registrar"
            reseller := none
            registrant := get_attr_owner wh
            dnssec := dn
            status := get_attr_generic_single wh "status"
            statuses := (get_attr_statuses wh).map Value.list }

/-- Outcome of the external `ext_whois.whois(domain)` call: a returned
raw result (possibly `None`), a `PywhoisError` carrying its message
string, or any other exception. -/
inductive LookupOutcome
  | result : Option RawResult → LookupOutcome
  | pywhoisError : String → LookupOutcome
  | otherError : LookupOutcome
deriving DecidableEq, Repr

/-- Exceptions escaping `query`: the two wrapper errors the module
defines, plus an unhandled Python exception escaping the unguarded
field-mapping step. -/
inductive QueryExc
  | whoisUnknownTLD
  | genericWhoisError
  | unhandled : PyExc → QueryExc
deriving DecidableEq, Repr

/-- Whether `pat` occurs as a contiguous run inside the character list,
the model of Python `pat in s`. -/
def charsContain (pat : List Char) : List Char → Bool
  | [] => pat.isEmpty
  | c :: rest => pat.isPrefixOf (c :: rest) || charsContain pat rest

/-- Model of the Python substring test `pat in s`. -/
def strContains (s pat : String) : Bool :=
  charsContain pat.toList s.toList

/-- Source `helper.py` line 37: `query`.  Classify a lookup failure
(UnknownTLD patterns first, then "No match for" suppressed, anything
else generic), return `None` for an absent raw result, and otherwise run
the field mapping, whose own exceptions escape unguarded. -/
def query (o : LookupOutcome) : Except QueryExc (Option Domain) :=
  match o with
  | .pywhoisError msg =>
      if strContains msg "No whois server is known for this kind of object"
          || strContains msg "This TLD has no whois server" then
        .error .whoisUnknownTLD
      else if strContains msg "No match for" then
        .ok none
      else
        .error .genericWhoisError
  | .otherError => .error .genericWhoisError
  | .result none => .ok none
  | .result (some wh) =>
      match mapDomain wh with
      | .error e => .error (.unhandled e)
      | .ok d => .ok (some d)

/-- Condition under which the dnssec extraction cannot raise: the raw
"dnssec" field is absent, falsy, or all of its entries are strings. -/
def dnssecStringsOnly (wh : RawResult) : Bool :=
  match List.lookup "dnssec" wh with
  | none => true
  | some (.scalar s) => s.isStr || !s.truthy
  | some (.list l) => l.all Scalar.isStr

/-- Whether the raw "status" field is absent or falsy, the shared guard
of `get_attr_generic_single` on "status" and of `get_attr_statuses`. -/
def statusRawEmpty (wh : RawResult) : Bool :=
  match List.lookup "status" wh with
  | none => true
  | some v => !v.truthy

/-- First present-and-truthy scalar of a list of optional scalars. -/
def firstTruthy : List (Option Scalar) → Option Scalar
  | [] => none
  | o :: rest =>
      match o with
      | some s => if s.truthy then some s else firstTruthy rest
      | none => firstTruthy rest

/-- Modelled from the spec's words for the owner/registrant rule: try, in
priority order, "name", then "org", then "registrant_name", each via
generic single-value extraction; the first non-empty value wins and is
cast to a string; all empty yields null.  Stated independently of
`get_attr_owner` to compare the two. -/
def ownerSpec (wh : RawResult) : Option String :=
  (firstTruthy
      [get_attr_generic_single wh "name", get_attr_generic_single wh "org",
        get_attr_generic_single wh "registrant_name"]).map Scalar.pyStr

/-- The creation date of the spec's sample raw dictionary. -/
def dtCreation : Datetime := ⟨2019, 1, 1, 0, 0, 0, 0, none⟩

/-- The expiration date of the spec's sample raw dictionary. -/
def dtExpiration : Datetime := ⟨2023, 1, 1, 0, 0, 0, 0, none⟩

/-- First entry of the sample's updated_date list (timezone-aware,
UTC offset of one hour). -/
def dtUpdatedA : Datetime := ⟨2022, 1, 1, 0, 0, 0, 0, some 60⟩

/-- Second entry of the sample's updated_date list. -/
def dtUpdatedB : Datetime := ⟨2023, 11, 20, 6, 55, 46, 110000, none⟩

/-- The sample raw dictionary from the spec (mirroring the repository's
test fixture `mock_whois`). -/
def sampleRaw : RawResult :=
  [ ("domain_name", Value.list [Scalar.str "HOME-ASSISTANT.IO"])
  , ("admin", Value.scalar (Scalar.str "Admin"))
  , ("creation_date", Value.scalar (Scalar.date dtCreation))
  , ("dnssec", Value.scalar (Scalar.str "signedDelegation"))
  , ("expiration_date", Value.scalar (Scalar.date dtExpiration))
  , ("updated_date", Value.list [Scalar.date dtUpdatedA, Scalar.date dtUpdatedB])
  , ("name_servers", Value.list [Scalar.str "NS1.example.COM", Scalar.str "ns2.EXAMPLE.com"])
  , ("registrant_name", Value.scalar (Scalar.str "registrant@example.com"))
  , ("registrar", Value.scalar (Scalar.str "My Registrar"))
  , ("status", Value.scalar (Scalar.str "OK")) ]

/-- The record `query` actually produces on the sample raw dictionary:
note `statuses` holds the one-element list, not the bare scalar. -/
def sampleDomain : Domain :=
  { admin := some (Scalar.str "Admin")
    creation_date := some dtCreation
    expiration_date := some dtExpiration
    last_updated := some dtUpdatedA
    name_servers := some ["ns1.example.com", "ns2.example.com"]
    owner := some "registrant@example.com"
    registrar := some (Scalar.str "My Registrar")
    reseller := none
    registrant := some "registrant@example.com"
    dnssec := true
    status := some (Scalar.str "OK")
    statuses := some (Value.list [Scalar.str "OK"]) }

/-- The record the spec's end-to-end sentence describes: identical to
`sampleDomain` except that `statuses` is claimed to be the bare scalar
"OK". -/
def claimedSampleDomain : Domain :=
  { admin := some (Scalar.str "Admin")
    creation_date := some dtCreation
    expiration_date := some dtExpiration
    last_updated := some dtUpdatedA
    name_servers := some ["ns1.example.com", "ns2.example.com"]
    owner := some "registrant@example.com"
    registrar := some (Scalar.str "My Registrar")
    reseller := none
    registrant := some "registrant@example.com"
    dnssec := true
    status := some (Scalar.str "OK")
    statuses := some (Value.scalar (Scalar.str "OK")) }

/-- C2: for every lookup failure whose message contains "No whois server
is known for this kind of object" or "This TLD has no whois server",
`query` raises the UnknownTLD error kind and returns no record. -/
theorem C2_unknown_tld (msg : String)
    (h : strContains msg "No whois server is known for this kind of object" = true
      ∨ strContains msg "This TLD has no whois server" = true) :
    query (LookupOutcome.pywhoisError msg) = .error .whoisUnknownTLD := by
  unfold query
  rcases h with h | h <;> simp [h]

/-- Witness for C2 at the concrete message "This TLD has no whois server". -/
theorem C2_unknown_tld_witness :
    (strContains "This TLD has no whois server"
          "No whois server is known for this kind of object" = true
      ∨ strContains "This TLD has no whois server" "This TLD has no whois server" = true)
    ∧ query (LookupOutcome.pywhoisError "This TLD has no whois server")
        = .error .whoisUnknownTLD :=
  ⟨Or.inr (by decide), C2_unknown_tld _ (Or.inr (by decide))⟩

/-- C3 counterexample: a failure message containing "No match for" does
not always make `query` return the absent record — when the message also
contains an UnknownTLD pattern, the TLD classification wins and `query`
raises instead. -/
theorem C3_counterexample :
    strContains "No match for domain: This TLD has no whois server" "No match for" = true
    ∧ query (LookupOutcome.pywhoisError
        "No match for domain: This TLD has no whois server") ≠ .ok none := by
  constructor
  · decide
  · decide

/-- C3 amended: `query` returns the absent record without raising exactly
when the lookup raised a failure whose message contains "No match for"
and matches neither UnknownTLD pattern, or the lookup returned the
absent raw result. -/
theorem C3_not_found_iff (o : LookupOutcome) :
    query o = .ok none ↔
      ((∃ msg, o = LookupOutcome.pywhoisError msg
          ∧ strContains msg "No whois server is known for this kind of object" = false
          ∧ strContains msg "This TLD has no whois server" = false
          ∧ strContains msg "No match for" = true)
        ∨ o = LookupOutcome.result none) := by
  cases o with
  | result r =>
      cases r with
      | none => simp [query]
      | some wh => cases h : mapDomain wh <;> simp [query, h]
  | pywhoisError msg =>
      cases h1 : strContains msg "No whois server is known for this kind of object" with
      | true => simp [query, h1]
      | false =>
          cases h2 : strContains msg "This TLD has no whois server" with
          | true => simp [query, h1, h2]
          | false =>
              cases h3 : strContains msg "No match for" with
              | true => simp [query, h1, h2, h3]
              | false => simp [query, h1, h2, h3]
  | otherError => simp [query]

/-- Witness for C3 amended at the absent raw result. -/
theorem C3_not_found_iff_witness :
    query (LookupOutcome.result none) = .ok none :=
  (C3_not_found_iff (LookupOutcome.result none)).mpr (Or.inr rfl)

/-- C4 counterexample: an exception other than the two wrapper errors can
escape `query` — the unguarded field mapping of a present raw result
whose dnssec field holds a datetime raises an AttributeError that
`query` does not catch. -/
theorem C4_counterexample :
    query (LookupOutcome.result (some [("dnssec", Value.scalar (Scalar.date dtCreation))]))
        = .error (.unhandled .attributeError)
    ∧ QueryExc.unhandled PyExc.attributeError ≠ QueryExc.whoisUnknownTLD
    ∧ QueryExc.unhandled PyExc.attributeError ≠ QueryExc.genericWhoisError := by
  refine ⟨by decide, by decide, by decide⟩

/-- C4 amended: every lookup failure other than the UnknownTLD-matching
messages and the "No match for" messages makes `query` raise
GenericWhoisError, and on lookup failures only the two wrapper error
kinds ever escape; an exception from the unguarded field mapping of a
present result can, however, escape separately. -/
theorem C4_generic_lookup_error (msg : String)
    (h1 : strContains msg "No whois server is known for this kind of object" = false)
    (h2 : strContains msg "This TLD has no whois server" = false)
    (h3 : strContains msg "No match for" = false) :
    query (LookupOutcome.pywhoisError msg) = .error .genericWhoisError
    ∧ query LookupOutcome.otherError = .error .genericWhoisError
    ∧ (∀ m e, query (LookupOutcome.pywhoisError m) = .error e →
        e = .whoisUnknownTLD ∨ e = .genericWhoisError)
    ∧ (∀ e, query LookupOutcome.otherError = .error e → e = .genericWhoisError) := by
  refine ⟨by simp [query, h1, h2, h3], rfl, ?_, ?_⟩
  · intro m e he
    unfold query at he
    cases g1 : strContains m "No whois server is known for this kind of object" <;>
      cases g2 : strContains m "This TLD has no whois server" <;>
        cases g3 : strContains m "No match for" <;>
          simp [g1, g2, g3] at he <;> simp [← he]
  · intro e he
    have h : Except.error (α := Option Domain) QueryExc.genericWhoisError = .error e := he
    exact (Except.error.inj h).symm

/-- Witness for C4 amended at the concrete message "connection timed out". -/
theorem C4_generic_lookup_error_witness :
    (strContains "connection timed out"
          "No whois server is known for this kind of object" = false
      ∧ strContains "connection timed out" "This TLD has no whois server" = false
      ∧ strContains "connection timed out" "No match for" = false)
    ∧ query (LookupOutcome.pywhoisError "connection timed out")
        = .error .genericWhoisError :=
  ⟨⟨by decide, by decide, by decide⟩,
    (C4_generic_lookup_error _ (by decide) (by decide) (by decide)).1⟩

/-- C7 counterexample: list-versus-scalar equivalence fails for the empty
string — a one-element list holding "" is truthy and yields "", while
the bare scalar "" is falsy and yields null. -/
theorem C7_counterexample :
    get_attr_generic_single [("admin", Value.list [Scalar.str ""])] "admin"
        = some (Scalar.str "")
    ∧ get_attr_generic_single [("admin", Value.scalar (Scalar.str ""))] "admin" = none
    ∧ some (Scalar.str "") ≠ (none : Option Scalar) := by
  refine ⟨by decide, by decide, by decide⟩

/-- C7 amended: for every truthy value x, generic single-value extraction
on a field holding the one-element list [x] agrees with extraction on a
field holding the bare scalar x, both yielding x; for falsy x the two
shapes disagree (list gives x, scalar gives null). -/
theorem C7_list_scalar_equiv (wh1 wh2 : RawResult) (a : String) (x : Scalar)
    (hx : x.truthy = true)
    (h1 : List.lookup a wh1 = some (Value.list [x]))
    (h2 : List.lookup a wh2 = some (Value.scalar x)) :
    get_attr_generic_single wh1 a = get_attr_generic_single wh2 a
    ∧ get_attr_generic_single wh1 a = some x := by
  unfold get_attr_generic_single
  rw [h1, h2]
  simp [Value.truthy, hx]

/-- Witness for C7 amended at the scalar "ok". -/
theorem C7_list_scalar_equiv_witness :
    ((Scalar.str "ok").truthy = true
      ∧ List.lookup "status" [("status", Value.list [Scalar.str "ok"])]
          = some (Value.list [Scalar.str "ok"])
      ∧ List.lookup "status" [("status", Value.scalar (Scalar.str "ok"))]
          = some (Value.scalar (Scalar.str "ok")))
    ∧ get_attr_generic_single [("status", Value.list [Scalar.str "ok"])] "status"
        = get_attr_generic_single [("status", Value.scalar (Scalar.str "ok"))] "status" :=
  ⟨⟨by decide, by decide, by decide⟩,
    (C7_list_scalar_equiv [("status", Value.list [Scalar.str "ok"])]
      [("status", Value.scalar (Scalar.str "ok"))] "status" (Scalar.str "ok")
      (by decide) (by decide) (by decide)).1⟩

/-- Helper: on a list of string scalars the short-circuiting dnssec scan
never raises and computes the any-not-"unsigned" test. -/
theorem dnssecAny_map_str (l : List String) :
    dnssecAny (l.map Scalar.str)
      = .ok (l.any fun x => decide ((pyLower x) ≠ "unsigned")) := by
  induction l with
  | nil => rfl
  | cons x rest ih =>
      by_cases hx : (pyLower x) = "unsigned"
      · simp [dnssecAny, Scalar.lowerE, hx, ih]
      · simp [dnssecAny, Scalar.lowerE, hx]

/-- Helper: the dnssec scan succeeds on any list of string scalars. -/
theorem dnssecAny_ok_of_strings (l : List Scalar) (h : l.all Scalar.isStr = true) :
    ∃ b, dnssecAny l = .ok b := by
  induction l with
  | nil => exact ⟨false, rfl⟩
  | cons x rest ih =>
      simp only [List.all_cons, Bool.and_eq_true] at h
      obtain ⟨hx, hrest⟩ := h
      cases x with
      | str s =>
          by_cases hs : (pyLower s) = "unsigned"
          · obtain ⟨b, hb⟩ := ih hrest
            exact ⟨b, by simp [dnssecAny, Scalar.lowerE, hs, hb]⟩
          · exact ⟨true, by simp [dnssecAny, Scalar.lowerE, hs]⟩
      | date d => simp [Scalar.isStr] at hx
      | bool b => simp [Scalar.isStr] at hx

/-- Helper: the dnssec extraction succeeds whenever the raw dnssec field
is absent, falsy, or holds only string entries. -/
theorem get_attr_dnssec_ok (wh : RawResult) (h : dnssecStringsOnly wh = true) :
    ∃ b, get_attr_dnssec wh = .ok b := by
  unfold dnssecStringsOnly at h
  unfold get_attr_dnssec
  cases hl : List.lookup "dnssec" wh with
  | none => exact ⟨false, rfl⟩
  | some v =>
      rw [hl] at h
      cases v with
      | scalar s =>
          cases ht : s.truthy with
          | false => exact ⟨false, by simp [Value.truthy, ht]⟩
          | true =>
              simp only [ht, Bool.not_true, Bool.or_false] at h
              cases s with
              | str s0 =>
                  have hok := dnssecAny_ok_of_strings [Scalar.str s0]
                    (by simp [Scalar.isStr])
                  obtain ⟨b, hb⟩ := hok
                  exact ⟨b, by simp [Value.truthy, ht, hb]⟩
              | date d => simp [Scalar.isStr] at h
              | bool b => simp [Scalar.isStr] at h
      | list l =>
          cases l with
          | nil => exact ⟨false, by simp [Value.truthy]⟩
          | cons a as =>
              obtain ⟨b, hb⟩ := dnssecAny_ok_of_strings (a :: as) h
              exact ⟨b, by simp [Value.truthy, hb]⟩

/-- C1 counterexample: the field-mapping step is not total on every
inbound value shape — a present raw result whose dnssec field holds the
boolean True makes the mapping raise an AttributeError instead of
degrading to a null or boolean field. -/
theorem C1_counterexample :
    mapDomain [("dnssec", Value.scalar (Scalar.bool true))] = .error .attributeError := by
  decide

/-- C1 amended: the field-mapping step of `query` is total on every
present raw result whose dnssec field, when present and truthy, holds
only string entries; all other fields tolerate every inbound shape. -/
theorem C1_mapping_total (wh : RawResult) (h : dnssecStringsOnly wh = true) :
    (mapDomain wh).isOk = true := by
  obtain ⟨b, hb⟩ := get_attr_dnssec_ok wh h
  unfold mapDomain
  rw [hb]
  rfl

/-- Witness for C1 amended at the spec's sample raw dictionary. -/
theorem C1_mapping_total_witness :
    dnssecStringsOnly sampleRaw = true ∧ (mapDomain sampleRaw).isOk = true :=
  ⟨by decide, C1_mapping_total sampleRaw (by decide)⟩

/-- C6 counterexample: a dnssec field holding the boolean True has at
least one entry that is not the string "unsigned", yet the extraction
raises an AttributeError instead of yielding true. -/
theorem C6_counterexample :
    get_attr_dnssec [("dnssec", Value.list [Scalar.bool true])] = .error .attributeError
    ∧ get_attr_dnssec [("dnssec", Value.list [Scalar.bool true])] ≠ .ok true
    ∧ get_attr_dnssec [("dnssec", Value.list [Scalar.bool true])] ≠ .ok false := by
  refine ⟨by decide, by decide, by decide⟩

/-- C6 amended: dnssec is false when the raw field is absent or falsy;
on a list of string entries it is the case-insensitive
any-not-"unsigned" test; on a truthy bare string scalar it is the same
test on that single entry; non-string entries can instead raise. -/
theorem C6_dnssec (wh : RawResult) :
    (List.lookup "dnssec" wh = none → get_attr_dnssec wh = .ok false)
    ∧ (∀ v : Value, List.lookup "dnssec" wh = some v → v.truthy = false →
        get_attr_dnssec wh = .ok false)
    ∧ (∀ l : List String, List.lookup "dnssec" wh = some (Value.list (l.map Scalar.str)) →
        get_attr_dnssec wh = .ok (l.any fun x => decide ((pyLower x) ≠ "unsigned")))
    ∧ (∀ s : String, List.lookup "dnssec" wh = some (Value.scalar (Scalar.str s)) → s ≠ "" →
        get_attr_dnssec wh = .ok (decide ((pyLower s) ≠ "unsigned"))) := by
  refine ⟨?_, ?_, ?_, ?_⟩
  · intro h
    unfold get_attr_dnssec
    rw [h]
  · intro v h hv
    unfold get_attr_dnssec
    rw [h]
    simp [hv]
  · intro l h
    unfold get_attr_dnssec
    rw [h]
    cases l with
    | nil => simp [Value.truthy]
    | cons x rest =>
        simpa [Value.truthy] using dnssecAny_map_str (x :: rest)
  · intro s h hs
    unfold get_attr_dnssec
    rw [h]
    by_cases hsl : (pyLower s) = "unsigned" <;>
      simp [Value.truthy, Scalar.truthy, hs, dnssecAny, Scalar.lowerE, hsl]

/-- Witness for C6 amended at the spec's example list
["unsigned", "signedDelegation"]. -/
theorem C6_dnssec_witness :
    List.lookup "dnssec"
        ([("dnssec", Value.list [Scalar.str "unsigned", Scalar.str "signedDelegation"])] : RawResult)
        = some (Value.list (["unsigned", "signedDelegation"].map Scalar.str))
    ∧ (["unsigned", "signedDelegation"].any fun x => decide ((pyLower x) ≠ "unsigned")) = true
    ∧ get_attr_dnssec [("dnssec", Value.list [Scalar.str "unsigned", Scalar.str "signedDelegation"])]
        = .ok (["unsigned", "signedDelegation"].any fun x => decide ((pyLower x) ≠ "unsigned")) :=
  ⟨by decide, by decide,
    (C6_dnssec [("dnssec", Value.list [Scalar.str "unsigned", Scalar.str "signedDelegation"])]).2.2.1
      ["unsigned", "signedDelegation"] (by decide)⟩

/-- C5 counterexample: on the spec's sample raw dictionary `query` does
not return the record the spec's end-to-end sentence describes, because
statuses is the one-element list ["OK"], not the bare scalar "OK". -/
theorem C5_counterexample :
    query (LookupOutcome.result (some sampleRaw)) ≠ .ok (some claimedSampleDomain)
    ∧ claimedSampleDomain.statuses = some (Value.scalar (Scalar.str "OK")) := by
  refine ⟨by decide, by decide⟩

/-- C5 amended: on the spec's sample raw dictionary `query` returns the
described record except that statuses holds the one-element list ["OK"]
(the bare scalar wrapped into a sequence), not the scalar "OK". -/
theorem C5_sample_end_to_end :
    query (LookupOutcome.result (some sampleRaw)) = .ok (some sampleDomain) := by
  decide

/-- Helper: the `or` chain plus final truthiness guard of the owner
extraction agrees with taking the first present-and-truthy candidate and
casting it to a string. -/
theorem ownerChain_eq (a b c : Option Scalar) :
    (match orScalar a (orScalar b c) with
      | some s => if s.truthy then some s.pyStr else none
      | none => none)
      = (firstTruthy [a, b, c]).map Scalar.pyStr := by
  rcases a with _ | s
  · rcases b with _ | t
    · rcases c with _ | u
      · rfl
      · cases hu : u.truthy <;> simp [orScalar, firstTruthy, hu]
    · cases ht : t.truthy
      · rcases c with _ | u
        · simp [orScalar, firstTruthy, ht]
        · cases hu : u.truthy <;> simp [orScalar, firstTruthy, ht, hu]
      · simp [orScalar, firstTruthy, ht]
  · cases hs : s.truthy
    · rcases b with _ | t
      · rcases c with _ | u
        · simp [orScalar, firstTruthy, hs]
        · cases hu : u.truthy <;> simp [orScalar, firstTruthy, hs, hu]
      · cases ht : t.truthy
        · rcases c with _ | u
          · simp [orScalar, firstTruthy, hs, ht]
          · cases hu : u.truthy <;> simp [orScalar, firstTruthy, hs, ht, hu]
        · simp [orScalar, firstTruthy, hs, ht]
    · simp [orScalar, firstTruthy, hs]

/-- Helper: `get_attr_owner` coincides with the spec-worded priority
extraction `ownerSpec`. -/
theorem get_attr_owner_eq_ownerSpec (wh : RawResult) :
    get_attr_owner wh = ownerSpec wh := by
  unfold get_attr_owner ownerSpec
  exact ownerChain_eq _ _ _

/-- Helper: on a successful `query` of a present raw result, the fields
of the returned record are exactly the respective extractions. -/
theorem query_ok_fields (wh : RawResult) (d : Domain)
    (h : query (LookupOutcome.result (some wh)) = .ok (some d)) :
    d.owner = get_attr_owner wh ∧ d.registrant = get_attr_owner wh
    ∧ d.status = get_attr_generic_single wh "status"
    ∧ d.statuses = (get_attr_statuses wh).map Value.list := by
  have hm : mapDomain wh = .ok d := by
    simp only [query] at h
    cases hm0 : mapDomain wh with
    | error e => rw [hm0] at h; cases h
    | ok d0 =>
        rw [hm0] at h
        have h1 : (Except.ok (some d0) : Except QueryExc (Option Domain))
            = .ok (some d) := h
        injection h1 with h2
        injection h2 with h3
        rw [h3]
  unfold mapDomain at hm
  cases hd : get_attr_dnssec wh with
  | error e => rw [hd] at hm; cases hm
  | ok dn =>
      rw [hd] at hm
      injection hm with hm1
      rw [← hm1]
      exact ⟨rfl, rfl, rfl, rfl⟩

/-- C8: for every present raw result successfully mapped by `query`, the
owner and registrant fields are equal and both coincide with the
spec-worded priority extraction over "name", "org", "registrant_name". -/
theorem C8_owner_registrant (wh : RawResult) (d : Domain)
    (h : query (LookupOutcome.result (some wh)) = .ok (some d)) :
    d.owner = d.registrant ∧ d.owner = ownerSpec wh := by
  obtain ⟨h1, h2, -, -⟩ := query_ok_fields wh d h
  constructor
  · rw [h1, h2]
  · rw [h1]
    exact get_attr_owner_eq_ownerSpec wh

/-- Witness for C8 at the spec's sample raw dictionary. -/
theorem C8_owner_registrant_witness :
    query (LookupOutcome.result (some sampleRaw)) = .ok (some sampleDomain)
    ∧ (sampleDomain.owner = sampleDomain.registrant
        ∧ sampleDomain.owner = ownerSpec sampleRaw) :=
  ⟨by decide, C8_owner_registrant sampleRaw sampleDomain (by decide)⟩

/-- C9: name servers are null when the raw field is absent or falsy, and
otherwise are the raw entries — a bare scalar wrapped into a one-element
sequence — each cast to a string and lower-cased, in original order. -/
theorem C9_name_servers (wh : RawResult) :
    (List.lookup "name_servers" wh = none → get_attr_name_servers wh = none)
    ∧ (∀ v : Value, List.lookup "name_servers" wh = some v → v.truthy = false →
        get_attr_name_servers wh = none)
    ∧ (∀ l : List Scalar, List.lookup "name_servers" wh = some (Value.list l) → l ≠ [] →
        get_attr_name_servers wh = some (l.map fun n => pyLower n.pyStr))
    ∧ (∀ s : Scalar, List.lookup "name_servers" wh = some (Value.scalar s) → s.truthy = true →
        get_attr_name_servers wh = some [pyLower s.pyStr]) := by
  refine ⟨?_, ?_, ?_, ?_⟩
  · intro h
    unfold get_attr_name_servers
    rw [h]
  · intro v h hv
    unfold get_attr_name_servers
    rw [h]
    simp [hv]
  · intro l h hl
    unfold get_attr_name_servers
    rw [h]
    simp [Value.truthy, hl]
  · intro s h hs
    unfold get_attr_name_servers
    rw [h]
    simp [Value.truthy, hs]

/-- Witness for C9 at the spec's example ["NS1.EXAMPLE.com",
"ns2.example.COM"]. -/
theorem C9_name_servers_witness :
    List.lookup "name_servers"
        ([("name_servers",
            Value.list [Scalar.str "NS1.EXAMPLE.com", Scalar.str "ns2.example.COM"])] : RawResult)
        = some (Value.list [Scalar.str "NS1.EXAMPLE.com", Scalar.str "ns2.example.COM"])
    ∧ ([Scalar.str "NS1.EXAMPLE.com", Scalar.str "ns2.example.COM"].map fun n => pyLower n.pyStr)
        = ["ns1.example.com", "ns2.example.com"]
    ∧ get_attr_name_servers
        [("name_servers",
            Value.list [Scalar.str "NS1.EXAMPLE.com", Scalar.str "ns2.example.COM"])]
        = some ([Scalar.str "NS1.EXAMPLE.com", Scalar.str "ns2.example.COM"].map
            fun n => pyLower n.pyStr) :=
  ⟨by decide, by decide,
    (C9_name_servers
        [("name_servers",
            Value.list [Scalar.str "NS1.EXAMPLE.com", Scalar.str "ns2.example.COM"])]).2.2.1
      [Scalar.str "NS1.EXAMPLE.com", Scalar.str "ns2.example.COM"] (by decide) (by decide)⟩

/-- C10: on every successfully mapped present raw result, either both
statuses and status are null — exactly when the raw "status" field is
absent or falsy — or statuses is a nonempty list and status is its first
element. -/
theorem C10_status_statuses (wh : RawResult) (d : Domain)
    (h : query (LookupOutcome.result (some wh)) = .ok (some d)) :
    ((d.statuses = none ∧ d.status = none)
      ∨ (∃ l : List Scalar, d.statuses = some (Value.list l) ∧ l ≠ []
          ∧ d.status = l.head?))
    ∧ ((d.statuses = none ∧ d.status = none) ↔ statusRawEmpty wh = true) := by
  obtain ⟨-, -, hst, hsts⟩ := query_ok_fields wh d h
  unfold get_attr_generic_single at hst
  unfold get_attr_statuses at hsts
  unfold statusRawEmpty
  cases hl : List.lookup "status" wh with
  | none =>
      rw [hl] at hst hsts
      simp at hst hsts
      exact ⟨Or.inl ⟨hsts, hst⟩, by simp [hsts, hst]⟩
  | some v =>
      rw [hl] at hst hsts
      cases v with
      | scalar s =>
          cases ht : (Value.scalar s).truthy with
          | false =>
              simp [ht] at hst hsts
              exact ⟨Or.inl ⟨hsts, hst⟩, by simp [hsts, hst, ht]⟩
          | true =>
              simp [ht] at hst hsts
              refine ⟨Or.inr ⟨[s], hsts, by simp, by simp [hst]⟩, ?_⟩
              simp [hsts, ht]
      | list l =>
          cases ht : (Value.list l).truthy with
          | false =>
              simp [ht] at hst hsts
              exact ⟨Or.inl ⟨hsts, hst⟩, by simp [hsts, hst, ht]⟩
          | true =>
              have hl0 : l ≠ [] := by
                intro hnil
                rw [hnil] at ht
                simp [Value.truthy] at ht
              simp [ht] at hst hsts
              refine ⟨Or.inr ⟨l, hsts, hl0, by simp [hst]⟩, ?_⟩
              simp [hsts, ht]

/-- Witness for C10 at the spec's sample raw dictionary. -/
theorem C10_status_statuses_witness :
    query (LookupOutcome.result (some sampleRaw)) = .ok (some sampleDomain)
    ∧ (((sampleDomain.statuses = none ∧ sampleDomain.status = none)
        ∨ (∃ l : List Scalar, sampleDomain.statuses = some (Value.list l) ∧ l ≠ []
            ∧ sampleDomain.status = l.head?))
      ∧ ((sampleDomain.statuses = none ∧ sampleDomain.status = none)
          ↔ statusRawEmpty sampleRaw = true)) :=
  ⟨by decide, C10_status_statuses sampleRaw sampleDomain (by decide)⟩
